import Mathlib

/-!
Verification of `pg_fts/migrations.py` (django-pg-fts).

Shallow embedding conventions:
* Django model metadata is embedded as plain records: a model has a
  `db_table` and a list of fields; `get_field_by_name` is an association
  lookup returning `Option` (Django raises `FieldDoesNotExist`, caught by
  the bare `except:` in `create_fts_trigger` and surfaced as an error in
  the operations).
* Python `str.format` on the SQL templates never rescans substituted
  values, so each `template.format(...)` call is embedded as the exact
  interleaving of the template's literal pieces with the argument strings;
  the literal pieces are transcribed from the source templates
  (`sql_delete_trigger`, `sql_create_trigger`, `sql_create_index`,
  `sql_delete_index`).  Single quotes in SQL text are written `\x27`.
* `schema_editor.execute(sql)` is embedded by returning the list of
  executed statements; an exception raised before the `execute` call is an
  `Except.error`, so an erroring invocation executes nothing.
* `raise AttributeError` (the `isinstance(..., TSVectorField)` guards) is
  `OpError.attributeError`; a failed `from_state.render().get_model` is
  `OpError.lookupError`; a failed `_meta.get_field_by_name` outside the
  guarded `try` is `OpError.fieldDoesNotExist`.
-/

/-- A non-tsvector Django model field, reduced to what `migrations.py`
reads from it: its lookup name and `get_attname_column()[1]`. -/
structure PlainField where
  fname : String
  column : String
deriving DecidableEq, Repr

/-- Modelled from the spec: `pg_fts.fields.TSVectorField` lives in
`pg_fts/fields.py`, which is not under `src/`; only `migrations.py` is.
The spec describes it as the designated tsvector column with weighted
source fields and a dictionary, so it is modelled as a record exposing
exactly what `migrations.py` consumes: its lookup name, its
`get_attname_column()[1]`, its `dictionary` attribute, and the
`(field, rank)` pairs yielded by `_get_fields_and_ranks()` in order. -/
structure TSVectorField where
  fname : String
  column : String
  dictionary : String
  fieldsAndRanks : List (PlainField × String)
deriving DecidableEq, Repr

/-- A Django field as seen by `migrations.py`: either an ordinary field or
a `TSVectorField`.  The `isinstance(field, TSVectorField)` checks branch on
this distinction. -/
inductive DjField where
  | plain (f : PlainField)
  | vector (v : TSVectorField)
deriving DecidableEq, Repr

/-- The field's lookup name in the model's metadata. -/
def DjField.fname : DjField → String
  | .plain f => f.fname
  | .vector v => v.fname

/-- `field.get_attname_column()[1]`: the database column name. -/
def DjField.column : DjField → String
  | .plain f => f.column
  | .vector v => v.column

/-- `isinstance(field, TSVectorField)`. -/
def DjField.isTSVectorField : DjField → Bool
  | .plain _ => false
  | .vector _ => true

/-- A rendered Django model: `_meta.db_table` and its fields. -/
structure Model where
  db_table : String
  fields : List DjField
deriving DecidableEq, Repr

/-- `model._meta.get_field_by_name(name)[0]`, with `FieldDoesNotExist`
embedded as `none`. -/
def Model.get_field_by_name (m : Model) (n : String) : Option DjField :=
  m.fields.find? (fun f => f.fname == n)

/-- A rendered migration project state: `from_state.render().get_model`
looks a model up by `(app_label, model_name)`. -/
structure ProjectState where
  models : List ((String × String) × Model)
deriving DecidableEq, Repr

/-- `state.render().get_model(app_label, name)`, with a failed lookup
embedded as `none`. -/
def ProjectState.get_model (st : ProjectState) (app_label n : String) :
    Option Model :=
  (st.models.find? (fun e => e.1 == (app_label, n))).map (fun e => e.2)

/-- The exceptions the operations can raise before reaching
`schema_editor.execute`. -/
inductive OpError where
  | lookupError
  | fieldDoesNotExist
  | attributeError
deriving DecidableEq, Repr

namespace PgFtsSQL

/-- `PgFtsSQL.sql_delete_trigger` instantiated at `model`/`fts_name`:
`"DROP TRIGGER {model}_{fts_name}_update ON {model};DROP FUNCTION
{model}_{fts_name}_update()"`. -/
def sql_delete_trigger (model fts_name : String) : String :=
  "DROP TRIGGER " ++ model ++ "_" ++ fts_name ++ "_update ON " ++ model ++
    ";DROP FUNCTION " ++ model ++ "_" ++ fts_name ++ "_update()"

/-- `PgFtsSQL.sql_create_trigger` instantiated at its four template
arguments.  The literal pieces are transcribed from the triple-quoted
template in the source (which begins with a newline); `\x27` is a single
quote. -/
def sql_create_trigger (model fts_name fts_fields vectors : String) :
    String :=
  "\nCREATE FUNCTION " ++ model ++ "_" ++ fts_name ++
    "_update() RETURNS TRIGGER AS $$\nBEGIN\n    IF TG_OP = \x27INSERT\x27 THEN\n        new." ++
    fts_name ++ " = " ++ vectors ++
    ";\n    END IF;\n    IF TG_OP = \x27UPDATE\x27 THEN\n        IF " ++
    fts_fields ++ " THEN\n            new." ++ fts_name ++ " = " ++
    vectors ++
    ";\n        END IF;\n    END IF;\nRETURN NEW;\nEND;\n$$ LANGUAGE \x27plpgsql\x27;\nCREATE TRIGGER " ++
    model ++ "_" ++ fts_name ++ "_update BEFORE INSERT OR UPDATE ON " ++
    model ++ "\nFOR EACH ROW EXECUTE PROCEDURE " ++ model ++ "_" ++
    fts_name ++ "_update()"

/-- `PgFtsSQL.sql_create_index` instantiated:
`"CREATE INDEX {model}_{fts_name} ON {model} USING {fts_index}({fts_name})"`. -/
def sql_create_index (model fts_index fts_name : String) : String :=
  "CREATE INDEX " ++ model ++ "_" ++ fts_name ++ " ON " ++ model ++
    " USING " ++ fts_index ++ "(" ++ fts_name ++ ")"

/-- `PgFtsSQL.sql_delete_index` instantiated:
`"DROP INDEX {model}_{fts_name}"`. -/
def sql_delete_index (model fts_name : String) : String :=
  "DROP INDEX " ++ model ++ "_" ++ fts_name

/-- `PgFtsSQL.delete_trigger(model, field)`. -/
def delete_trigger (model : Model) (field : DjField) : String :=
  sql_delete_trigger model.db_table field.column

/-- `PgFtsSQL._get_vector_for_field(field, weight, dictionary)`:
`"setweight(to_tsvector(%s, COALESCE(NEW.%s, '')), '%s')" %
(dictionary, field.get_attname_column()[1], weight)`. -/
def _get_vector_for_field (field : PlainField) (weight dictionary : String) :
    String :=
  "setweight(to_tsvector(" ++ dictionary ++ ", COALESCE(NEW." ++
    field.column ++ ", \x27\x27)), \x27" ++ weight ++ "\x27)"

/-- `PgFtsSQL.create_fts_trigger(model, vector_field)`.  Raises
`AttributeError` unless `vector_field` is a `TSVectorField`.  The
`try`/bare-`except` around the dictionary-field lookup becomes a match on
`Model.get_field_by_name`: on success the dictionary renders as
`NEW.<dict_column>::regconfig` and the change condition on the dictionary
(attribute name, not column) is appended to `fields` first; on failure the
dictionary renders as the quoted literal.  The loop over
`_get_fields_and_ranks()` then appends one change condition and one
setweight vector per `(field, rank)` pair. -/
def create_fts_trigger (model : Model) (vector_field : DjField) :
    Except OpError String :=
  match vector_field with
  | .plain _ => .error .attributeError
  | .vector v =>
    let dictFields : String × List String :=
      match model.get_field_by_name v.dictionary with
      | some dict_field =>
        ("NEW." ++ dict_field.column ++ "::regconfig",
         ["NEW." ++ v.dictionary ++ " <> OLD." ++ v.dictionary])
      | none => ("\x27" ++ v.dictionary ++ "\x27", [])
    let dictionary := dictFields.1
    let fields := dictFields.2 ++
      v.fieldsAndRanks.map
        (fun fr => "NEW." ++ fr.1.column ++ " <> OLD." ++ fr.1.column)
    let vectors := v.fieldsAndRanks.map
      (fun fr => _get_vector_for_field fr.1 fr.2 dictionary)
    .ok (sql_create_trigger model.db_table v.column
      (String.intercalate " OR " fields)
      (String.intercalate " || " vectors))

/-- `PgFtsSQL.create_index(model, vector_field, index)`. -/
def create_index (model : Model) (vector_field : DjField) (index : String) :
    String :=
  sql_create_index model.db_table index vector_field.column

/-- `PgFtsSQL.delete_index(model, vector_field)`. -/
def delete_index (model : Model) (vector_field : DjField) : String :=
  sql_delete_index model.db_table vector_field.column

end PgFtsSQL

/-- The module's `__all__` tuple, transcribed with Python's implicit
adjacent-string-literal concatenation: the source has no comma after
`'CreateFTSTriggerOperation'`, so the second and third names fuse into one
entry and the tuple has three elements. -/
def module_all : List String :=
  ["CreateFTSIndexOperation",
   "CreateFTSTriggerOperation" ++ "DeleteFTSIndexOperation",
   "DeleteFTSTriggerOperation"]

/-- The four operation classes the module actually defines. -/
def module_classes : List String :=
  ["CreateFTSTriggerOperation", "DeleteFTSTriggerOperation",
   "CreateFTSIndexOperation", "DeleteFTSIndexOperation"]

/-- `CreateFTSTriggerOperation(name, fts_vector)`: the `__init__` just
stores its two arguments. -/
structure CreateFTSTriggerOperation where
  oname : String
  fts_vector : String
deriving DecidableEq, Repr

namespace CreateFTSTriggerOperation

/-- `state_forwards(app_label, state)` is `pass`: the state is returned
unmodified. -/
def state_forwards (_self : CreateFTSTriggerOperation) (_app_label : String)
    (state : ProjectState) : ProjectState :=
  state

/-- `database_forwards`: look up the model in `from_state`, then the
vector field, then execute `create_fts_trigger`'s SQL.  The result is the
list of statements handed to `schema_editor.execute`. -/
def database_forwards (self : CreateFTSTriggerOperation) (app_label : String)
    (from_state _to_state : ProjectState) : Except OpError (List String) :=
  match from_state.get_model app_label self.oname with
  | none => .error .lookupError
  | some model =>
    match model.get_field_by_name self.fts_vector with
    | none => .error .fieldDoesNotExist
    | some vector_field =>
      match PgFtsSQL.create_fts_trigger model vector_field with
      | .error e => .error e
      | .ok sql => .ok [sql]

/-- `database_backwards`: same lookups, then execute `delete_trigger`'s
SQL. -/
def database_backwards (self : CreateFTSTriggerOperation) (app_label : String)
    (from_state _to_state : ProjectState) : Except OpError (List String) :=
  match from_state.get_model app_label self.oname with
  | none => .error .lookupError
  | some model =>
    match model.get_field_by_name self.fts_vector with
    | none => .error .fieldDoesNotExist
    | some vector_field =>
      .ok [PgFtsSQL.delete_trigger model vector_field]

end CreateFTSTriggerOperation

/-- `DeleteFTSTriggerOperation(name, fts_vector)`. -/
structure DeleteFTSTriggerOperation where
  oname : String
  fts_vector : String
deriving DecidableEq, Repr

namespace DeleteFTSTriggerOperation

/-- `state_forwards` is `pass`. -/
def state_forwards (_self : DeleteFTSTriggerOperation) (_app_label : String)
    (state : ProjectState) : ProjectState :=
  state

/-- `database_forwards`: look up model and field, execute
`delete_trigger`'s SQL. -/
def database_forwards (self : DeleteFTSTriggerOperation) (app_label : String)
    (from_state _to_state : ProjectState) : Except OpError (List String) :=
  match from_state.get_model app_label self.oname with
  | none => .error .lookupError
  | some model =>
    match model.get_field_by_name self.fts_vector with
    | none => .error .fieldDoesNotExist
    | some vector_field =>
      .ok [PgFtsSQL.delete_trigger model vector_field]

/-- `database_backwards`: look up model and field, execute
`create_fts_trigger`'s SQL. -/
def database_backwards (self : DeleteFTSTriggerOperation) (app_label : String)
    (from_state _to_state : ProjectState) : Except OpError (List String) :=
  match from_state.get_model app_label self.oname with
  | none => .error .lookupError
  | some model =>
    match model.get_field_by_name self.fts_vector with
    | none => .error .fieldDoesNotExist
    | some vector_field =>
      match PgFtsSQL.create_fts_trigger model vector_field with
      | .error e => .error e
      | .ok sql => .ok [sql]

end DeleteFTSTriggerOperation

/-- `CreateFTSIndexOperation(name, fts_vector, index)` after a successful
`__init__` (the `assert` passed and all three arguments are stored). -/
structure CreateFTSIndexOperation where
  oname : String
  fts_vector : String
  index : String
deriving DecidableEq, Repr

namespace CreateFTSIndexOperation

/-- `CreateFTSIndexOperation.INDEXS = ('gin', 'gist')`. -/
def INDEXS : List String := ["gin", "gist"]

/-- `CreateFTSIndexOperation.__init__`: `assert index in self.INDEXS,
"Invalid index '%s'. Options %s " % (index, ', '.join(self.INDEXS))`; a
failed assert is the `AssertionError` message as `Except.error`. -/
def init (n fts_vector index : String) :
    Except String CreateFTSIndexOperation :=
  if index ∈ INDEXS then
    .ok ⟨n, fts_vector, index⟩
  else
    .error ("Invalid index \x27" ++ index ++ "\x27. Options " ++
      String.intercalate ", " INDEXS ++ " ")

/-- `state_forwards` is `pass`. -/
def state_forwards (_self : CreateFTSIndexOperation) (_app_label : String)
    (state : ProjectState) : ProjectState :=
  state

/-- `database_forwards`: look up model and field, raise `AttributeError`
unless the field is a `TSVectorField`, then execute `create_index`'s
SQL. -/
def database_forwards (self : CreateFTSIndexOperation) (app_label : String)
    (from_state _to_state : ProjectState) : Except OpError (List String) :=
  match from_state.get_model app_label self.oname with
  | none => .error .lookupError
  | some model =>
    match model.get_field_by_name self.fts_vector with
    | none => .error .fieldDoesNotExist
    | some vector_field =>
      if vector_field.isTSVectorField then
        .ok [PgFtsSQL.create_index model vector_field self.index]
      else
        .error .attributeError

/-- `database_backwards`: look up model and field (no type check), execute
`delete_index`'s SQL. -/
def database_backwards (self : CreateFTSIndexOperation) (app_label : String)
    (from_state _to_state : ProjectState) : Except OpError (List String) :=
  match from_state.get_model app_label self.oname with
  | none => .error .lookupError
  | some model =>
    match model.get_field_by_name self.fts_vector with
    | none => .error .fieldDoesNotExist
    | some vector_field =>
      .ok [PgFtsSQL.delete_index model vector_field]

end CreateFTSIndexOperation

/-- `DeleteFTSIndexOperation(name, fts_vector, index)` after a successful
`__init__`. -/
structure DeleteFTSIndexOperation where
  oname : String
  fts_vector : String
  index : String
deriving DecidableEq, Repr

namespace DeleteFTSIndexOperation

/-- `DeleteFTSIndexOperation.INDEXS = ('gin', 'gist')`. -/
def INDEXS : List String := ["gin", "gist"]

/-- `DeleteFTSIndexOperation.__init__`, with the same `assert` as
`CreateFTSIndexOperation.__init__`. -/
def init (n fts_vector index : String) :
    Except String DeleteFTSIndexOperation :=
  if index ∈ INDEXS then
    .ok ⟨n, fts_vector, index⟩
  else
    .error ("Invalid index \x27" ++ index ++ "\x27. Options " ++
      String.intercalate ", " INDEXS ++ " ")

/-- `state_forwards` is `pass`. -/
def state_forwards (_self : DeleteFTSIndexOperation) (_app_label : String)
    (state : ProjectState) : ProjectState :=
  state

/-- `database_forwards`: look up model and field (no type check), execute
`delete_index`'s SQL. -/
def database_forwards (self : DeleteFTSIndexOperation) (app_label : String)
    (from_state _to_state : ProjectState) : Except OpError (List String) :=
  match from_state.get_model app_label self.oname with
  | none => .error .lookupError
  | some model =>
    match model.get_field_by_name self.fts_vector with
    | none => .error .fieldDoesNotExist
    | some vector_field =>
      .ok [PgFtsSQL.delete_index model vector_field]

/-- `database_backwards`: look up model and field, raise `AttributeError`
unless the field is a `TSVectorField`, then execute `create_index`'s
SQL. -/
def database_backwards (self : DeleteFTSIndexOperation) (app_label : String)
    (from_state _to_state : ProjectState) : Except OpError (List String) :=
  match from_state.get_model app_label self.oname with
  | none => .error .lookupError
  | some model =>
    match model.get_field_by_name self.fts_vector with
    | none => .error .fieldDoesNotExist
    | some vector_field =>
      if vector_field.isTSVectorField then
        .ok [PgFtsSQL.create_index model vector_field self.index]
      else
        .error .attributeError

end DeleteFTSIndexOperation

/-- The claim-side rendering of the to_tsvector dictionary argument:
`NEW.<dict_column>::regconfig` when the vector field's `dictionary`
attribute names an existing model field, else the quoted literal
`'<dictionary>'`. -/
def spec_dictionary (m : Model) (v : TSVectorField) : String :=
  match m.get_field_by_name v.dictionary with
  | some dict_field => "NEW." ++ dict_field.column ++ "::regconfig"
  | none => "\x27" ++ v.dictionary ++ "\x27"

/-- The claim-side change conditions `NEW.<col> <> OLD.<col>` for the
vector field's `(field, rank)` pairs, in order. -/
def spec_pair_conditions (v : TSVectorField) : List String :=
  v.fieldsAndRanks.map
    (fun fr => "NEW." ++ fr.1.column ++ " <> OLD." ++ fr.1.column)

/-- The claim-side extra change condition on the dictionary attribute:
present exactly when the dictionary names an existing model field. -/
def spec_dict_conditions (m : Model) (v : TSVectorField) : List String :=
  match m.get_field_by_name v.dictionary with
  | some _ => ["NEW." ++ v.dictionary ++ " <> OLD." ++ v.dictionary]
  | none => []

/-- The claim-side setweight vectors
`setweight(to_tsvector(<dictionary>, COALESCE(NEW.<col>, '')), '<rank>')`
over the `(field, rank)` pairs, in order. -/
def spec_vectors (m : Model) (v : TSVectorField) : List String :=
  v.fieldsAndRanks.map
    (fun fr =>
      "setweight(to_tsvector(" ++ spec_dictionary m v ++ ", COALESCE(NEW." ++
        fr.1.column ++ ", \x27\x27)), \x27" ++ fr.2 ++ "\x27)")

/-- Claim C1's rendering, following the claim's words: `{fts_fields}` is
the `' OR '`-join of the pair conditions ONLY (no dictionary
condition). -/
def create_fts_trigger_claimC1 (m : Model) (v : TSVectorField) : String :=
  PgFtsSQL.sql_create_trigger m.db_table v.column
    (String.intercalate " OR " (spec_pair_conditions v))
    (String.intercalate " || " (spec_vectors m v))

/-- The amended rendering: `{fts_fields}` additionally begins with the
dictionary change condition when the dictionary names a model field. -/
def create_fts_trigger_amended (m : Model) (v : TSVectorField) : String :=
  PgFtsSQL.sql_create_trigger m.db_table v.column
    (String.intercalate " OR "
      (spec_dict_conditions m v ++ spec_pair_conditions v))
    (String.intercalate " || " (spec_vectors m v))

/-- Example fixture: a plain `lang` field that can serve as a dictionary
field. -/
def exLang : PlainField := ⟨"lang", "lang"⟩

/-- Example fixture: a plain `title` field. -/
def exTitle : PlainField := ⟨"title", "title"⟩

/-- Example fixture: a plain `body` field. -/
def exBody : PlainField := ⟨"body", "body"⟩

/-- Example fixture: a tsvector field whose `dictionary` attribute `lang`
names an existing model field of `exModel`. -/
def exVector : TSVectorField :=
  ⟨"tsv", "tsv", "lang", [(exTitle, "A"), (exBody, "B")]⟩

/-- Example fixture: an `article` model carrying `exLang`, `exTitle`,
`exBody` and `exVector`. -/
def exModel : Model :=
  ⟨"article",
   [DjField.plain exLang, DjField.plain exTitle, DjField.plain exBody,
    DjField.vector exVector]⟩

/-- Example fixture: a tsvector field whose `dictionary` attribute
`english` names no field of `exModel2`. -/
def exVector2 : TSVectorField :=
  ⟨"tsv", "tsv", "english", [(exTitle, "A"), (exBody, "B")]⟩

/-- Example fixture: an `article` model without a `english` field. -/
def exModel2 : Model :=
  ⟨"article",
   [DjField.plain exTitle, DjField.plain exBody, DjField.vector exVector2]⟩

/-- Example fixture: a project state mapping `("app", "article")` to
`exModel`. -/
def exState : ProjectState := ⟨[(("app", "article"), exModel)]⟩

/-- A forwards or backwards invocation executes exactly one statement
when it succeeds (and none when it raises, since the error is thrown
before `schema_editor.execute`). -/
def executesOneOnSuccess (r : Except OpError (List String)) : Prop :=
  match r with
  | .ok l => l.length = 1
  | .error _ => True

set_option maxRecDepth 20000 in
/-- C1: as stated, `create_fts_trigger` does NOT always equal the
template instantiation whose `{fts_fields}` joins only the `(field, rank)`
pair conditions: on `exModel`, whose vector field's dictionary `lang`
names a model field, the generated `{fts_fields}` begins with the extra
condition `NEW.lang <> OLD.lang`. -/
theorem claim_C1_counterexample :
    (PgFtsSQL.create_fts_trigger exModel (DjField.vector exVector)).toOption ≠
      some (create_fts_trigger_claimC1 exModel exVector) := by
  decide

/-- C1 (amended): for every model and `TSVectorField`,
`create_fts_trigger` returns the `sql_create_trigger` template
instantiated with the model's `db_table` and the vector field's column,
`{vectors}` the `' || '`-join of the setweight terms over the
`(field, rank)` pairs in order, and `{fts_fields}` the `' OR '`-join of
the pair change conditions, preceded by the dictionary change condition
when the dictionary names an existing model field. -/
theorem claim_C1_amended (m : Model) (v : TSVectorField) :
    PgFtsSQL.create_fts_trigger m (DjField.vector v) =
      Except.ok (create_fts_trigger_amended m v) := by
  unfold PgFtsSQL.create_fts_trigger create_fts_trigger_amended
    spec_dict_conditions spec_pair_conditions spec_vectors spec_dictionary
  cases h : m.get_field_by_name v.dictionary <;>
    simp [h, PgFtsSQL._get_vector_for_field]

/-- C4: `create_index` returns exactly
`CREATE INDEX <table>_<col> ON <table> USING <index>(<col>)` and
`delete_index` returns exactly `DROP INDEX <table>_<col>`, where
`<table>` is the model's `db_table` and `<col>` the vector field's
column. -/
theorem claim_C4 (m : Model) (vf : DjField) (i : String) :
    PgFtsSQL.create_index m vf i =
      "CREATE INDEX " ++ m.db_table ++ "_" ++ vf.column ++ " ON " ++
        m.db_table ++ " USING " ++ i ++ "(" ++ vf.column ++ ")" ∧
    PgFtsSQL.delete_index m vf =
      "DROP INDEX " ++ m.db_table ++ "_" ++ vf.column :=
  ⟨rfl, rfl⟩

/-- C5: `delete_trigger` returns SQL dropping both the trigger and its
trigger function:
`DROP TRIGGER <table>_<col>_update ON <table>;DROP FUNCTION
<table>_<col>_update()`. -/
theorem claim_C5 (m : Model) (f : DjField) :
    PgFtsSQL.delete_trigger m f =
      "DROP TRIGGER " ++ m.db_table ++ "_" ++ f.column ++ "_update ON " ++
        m.db_table ++ ";DROP FUNCTION " ++ m.db_table ++ "_" ++ f.column ++
        "_update()" :=
  rfl

/-- C9: when the vector field's `dictionary` attribute names an existing
model field `df`, every setweight vector uses `NEW.<df.column>::regconfig`
as the to_tsvector dictionary argument and the UPDATE change disjunction
begins with `NEW.<dictionary> <> OLD.<dictionary>`; otherwise every
vector uses the quoted literal `'<dictionary>'` and no extra condition is
added. -/
theorem claim_C9 (m : Model) (v : TSVectorField) :
    (∀ df, m.get_field_by_name v.dictionary = some df →
      PgFtsSQL.create_fts_trigger m (DjField.vector v) =
        Except.ok (PgFtsSQL.sql_create_trigger m.db_table v.column
          (String.intercalate " OR "
            (("NEW." ++ v.dictionary ++ " <> OLD." ++ v.dictionary) ::
              spec_pair_conditions v))
          (String.intercalate " || "
            (v.fieldsAndRanks.map (fun fr =>
              PgFtsSQL._get_vector_for_field fr.1 fr.2
                ("NEW." ++ df.column ++ "::regconfig")))))) ∧
    (m.get_field_by_name v.dictionary = none →
      PgFtsSQL.create_fts_trigger m (DjField.vector v) =
        Except.ok (PgFtsSQL.sql_create_trigger m.db_table v.column
          (String.intercalate " OR " (spec_pair_conditions v))
          (String.intercalate " || "
            (v.fieldsAndRanks.map (fun fr =>
              PgFtsSQL._get_vector_for_field fr.1 fr.2
                ("\x27" ++ v.dictionary ++ "\x27")))))) := by
  constructor
  · intro df h
    unfold PgFtsSQL.create_fts_trigger spec_pair_conditions
    simp [h]
  · intro h
    unfold PgFtsSQL.create_fts_trigger spec_pair_conditions
    simp [h]

/-- C9, witnessed: on `exModel` the dictionary `lang` resolves to the
`lang` field and the rendered SQL carries `NEW.lang::regconfig` and the
leading `NEW.lang <> OLD.lang` condition; on `exModel2` the dictionary
`english` resolves to no field and the literal `'english'` is used. -/
theorem claim_C9_witness :
    exModel.get_field_by_name exVector.dictionary =
      some (DjField.plain exLang) ∧
    PgFtsSQL.create_fts_trigger exModel (DjField.vector exVector) =
      Except.ok (PgFtsSQL.sql_create_trigger "article" "tsv"
        (String.intercalate " OR "
          ("NEW.lang <> OLD.lang" :: spec_pair_conditions exVector))
        (String.intercalate " || "
          (exVector.fieldsAndRanks.map (fun fr =>
            PgFtsSQL._get_vector_for_field fr.1 fr.2
              "NEW.lang::regconfig")))) ∧
    exModel2.get_field_by_name exVector2.dictionary = none ∧
    PgFtsSQL.create_fts_trigger exModel2 (DjField.vector exVector2) =
      Except.ok (PgFtsSQL.sql_create_trigger "article" "tsv"
        (String.intercalate " OR " (spec_pair_conditions exVector2))
        (String.intercalate " || "
          (exVector2.fieldsAndRanks.map (fun fr =>
            PgFtsSQL._get_vector_for_field fr.1 fr.2 "\x27english\x27")))) :=
  ⟨by decide,
   (claim_C9 exModel exVector).1 (DjField.plain exLang) (by decide),
   by decide,
   (claim_C9 exModel2 exVector2).2 (by decide)⟩

/-- C2: constructing a `CreateFTSIndexOperation` or
`DeleteFTSIndexOperation` succeeds and stores the index exactly when the
index argument is in the allow-list `('gin', 'gist')`; otherwise the
`assert` fails with a message naming the invalid index and the allowed
options. -/
theorem claim_C2 (n fv i : String) :
    (CreateFTSIndexOperation.init n fv i =
        Except.ok (⟨n, fv, i⟩ : CreateFTSIndexOperation) ↔
      i ∈ CreateFTSIndexOperation.INDEXS) ∧
    (i ∉ CreateFTSIndexOperation.INDEXS →
      CreateFTSIndexOperation.init n fv i =
        Except.error ("Invalid index \x27" ++ i ++ "\x27. Options " ++
          "gin, gist" ++ " ")) ∧
    (DeleteFTSIndexOperation.init n fv i =
        Except.ok (⟨n, fv, i⟩ : DeleteFTSIndexOperation) ↔
      i ∈ DeleteFTSIndexOperation.INDEXS) ∧
    (i ∉ DeleteFTSIndexOperation.INDEXS →
      DeleteFTSIndexOperation.init n fv i =
        Except.error ("Invalid index \x27" ++ i ++ "\x27. Options " ++
          "gin, gist" ++ " ")) := by
  refine ⟨?_, ?_, ?_, ?_⟩
  · by_cases h : i ∈ CreateFTSIndexOperation.INDEXS <;>
      simp [CreateFTSIndexOperation.init, h]
  · intro h
    simp [CreateFTSIndexOperation.init, h]
    rfl
  · by_cases h : i ∈ DeleteFTSIndexOperation.INDEXS <;>
      simp [DeleteFTSIndexOperation.init, h]
  · intro h
    simp [DeleteFTSIndexOperation.init, h]
    rfl

/-- C2, witnessed: `btree` is rejected with the `AssertionError` message
while `gin` is accepted and stored. -/
theorem claim_C2_witness :
    ("btree" ∉ CreateFTSIndexOperation.INDEXS) ∧
    CreateFTSIndexOperation.init "article" "tsv" "btree" =
      Except.error "Invalid index \x27btree\x27. Options gin, gist " ∧
    ("btree" ∉ DeleteFTSIndexOperation.INDEXS) ∧
    DeleteFTSIndexOperation.init "article" "tsv" "btree" =
      Except.error "Invalid index \x27btree\x27. Options gin, gist " ∧
    CreateFTSIndexOperation.init "article" "tsv" "gin" =
      Except.ok (⟨"article", "tsv", "gin"⟩ : CreateFTSIndexOperation) :=
  ⟨by decide,
   (claim_C2 "article" "tsv" "btree").2.1 (by decide),
   by decide,
   (claim_C2 "article" "tsv" "btree").2.2.2 (by decide),
   (claim_C2 "article" "tsv" "gin").1.mpr (by decide)⟩

/-- C3: for every migration state, each operation's `database_backwards`
executes exactly the SQL of its counterpart's `database_forwards`: the
create-trigger operation reverses to the delete-trigger SQL and vice
versa, and the create-index operation reverses to the delete-index SQL
while the delete-index operation reverses to the create-index SQL for the
same stored index type. -/
theorem claim_C3 (app : String) (fs ts : ProjectState) (n fv i : String) :
    CreateFTSTriggerOperation.database_backwards ⟨n, fv⟩ app fs ts =
      DeleteFTSTriggerOperation.database_forwards ⟨n, fv⟩ app fs ts ∧
    DeleteFTSTriggerOperation.database_backwards ⟨n, fv⟩ app fs ts =
      CreateFTSTriggerOperation.database_forwards ⟨n, fv⟩ app fs ts ∧
    CreateFTSIndexOperation.database_backwards ⟨n, fv, i⟩ app fs ts =
      DeleteFTSIndexOperation.database_forwards ⟨n, fv, i⟩ app fs ts ∧
    DeleteFTSIndexOperation.database_backwards ⟨n, fv, i⟩ app fs ts =
      CreateFTSIndexOperation.database_forwards ⟨n, fv, i⟩ app fs ts :=
  ⟨rfl, rfl, rfl, rfl⟩

/-- C6: every `database_forwards` and `database_backwards` invocation of
every operation hands at most one statement to `schema_editor.execute`,
and exactly one whenever it does not raise. -/
theorem claim_C6 (app : String) (fs ts : ProjectState) (n fv i : String) :
    executesOneOnSuccess
      (CreateFTSTriggerOperation.database_forwards ⟨n, fv⟩ app fs ts) ∧
    executesOneOnSuccess
      (CreateFTSTriggerOperation.database_backwards ⟨n, fv⟩ app fs ts) ∧
    executesOneOnSuccess
      (DeleteFTSTriggerOperation.database_forwards ⟨n, fv⟩ app fs ts) ∧
    executesOneOnSuccess
      (DeleteFTSTriggerOperation.database_backwards ⟨n, fv⟩ app fs ts) ∧
    executesOneOnSuccess
      (CreateFTSIndexOperation.database_forwards ⟨n, fv, i⟩ app fs ts) ∧
    executesOneOnSuccess
      (CreateFTSIndexOperation.database_backwards ⟨n, fv, i⟩ app fs ts) ∧
    executesOneOnSuccess
      (DeleteFTSIndexOperation.database_forwards ⟨n, fv, i⟩ app fs ts) ∧
    executesOneOnSuccess
      (DeleteFTSIndexOperation.database_backwards ⟨n, fv, i⟩ app fs ts) := by
  refine ⟨?_, ?_, ?_, ?_, ?_, ?_, ?_, ?_⟩
  all_goals
    simp only [CreateFTSTriggerOperation.database_forwards,
      CreateFTSTriggerOperation.database_backwards,
      DeleteFTSTriggerOperation.database_forwards,
      DeleteFTSTriggerOperation.database_backwards,
      CreateFTSIndexOperation.database_forwards,
      CreateFTSIndexOperation.database_backwards,
      DeleteFTSIndexOperation.database_forwards,
      DeleteFTSIndexOperation.database_backwards]
    repeat' split
    all_goals simp [executesOneOnSuccess]

/-- C7: the module's `__all__` is NOT a four-element list of the defined
classes: Python's implicit adjacent-string concatenation (a missing comma
after `'CreateFTSTriggerOperation'`) makes it three entries, the middle
one naming no defined class, and two of the four classes are not
exported. -/
theorem claim_C7_module_all_mismatch :
    module_all.length = 3 ∧
    module_all = ["CreateFTSIndexOperation",
      "CreateFTSTriggerOperationDeleteFTSIndexOperation",
      "DeleteFTSTriggerOperation"] ∧
    "CreateFTSTriggerOperation" ∉ module_all ∧
    "DeleteFTSIndexOperation" ∉ module_all ∧
    "CreateFTSTriggerOperationDeleteFTSIndexOperation" ∉ module_classes := by
  decide

/-- C8: `create_fts_trigger` raises `AttributeError` (so produces no SQL)
on a non-`TSVectorField` field, `CreateFTSIndexOperation.database_forwards`
raises `AttributeError` before executing, `DeleteFTSIndexOperation`
checks the type only in `database_backwards`, and its `database_forwards`
executes the delete-index SQL even for a non-`TSVectorField` field. -/
theorem claim_C8 (m : Model) (f : DjField) (app : String)
    (fs ts : ProjectState) (n fv i : String) :
    (f.isTSVectorField = false →
      PgFtsSQL.create_fts_trigger m f = Except.error OpError.attributeError) ∧
    (fs.get_model app n = some m → m.get_field_by_name fv = some f →
      f.isTSVectorField = false →
      CreateFTSIndexOperation.database_forwards ⟨n, fv, i⟩ app fs ts =
        Except.error OpError.attributeError ∧
      DeleteFTSIndexOperation.database_backwards ⟨n, fv, i⟩ app fs ts =
        Except.error OpError.attributeError ∧
      DeleteFTSIndexOperation.database_forwards ⟨n, fv, i⟩ app fs ts =
        Except.ok [PgFtsSQL.delete_index m f]) := by
  constructor
  · intro hf
    cases f with
    | plain p => rfl
    | vector v => simp [DjField.isTSVectorField] at hf
  · intro h1 h2 h3
    refine ⟨?_, ?_, ?_⟩ <;>
      simp [CreateFTSIndexOperation.database_forwards,
        DeleteFTSIndexOperation.database_backwards,
        DeleteFTSIndexOperation.database_forwards, h1, h2, h3]

/-- C8, witnessed on the plain `title` field of `exModel`: the trigger
renderer and `CreateFTSIndexOperation.database_forwards` raise
`AttributeError`, `DeleteFTSIndexOperation.database_backwards` raises
too, yet `DeleteFTSIndexOperation.database_forwards` executes
`DROP INDEX article_title`. -/
theorem claim_C8_witness :
    exState.get_model "app" "article" = some exModel ∧
    exModel.get_field_by_name "title" = some (DjField.plain exTitle) ∧
    (DjField.plain exTitle).isTSVectorField = false ∧
    PgFtsSQL.create_fts_trigger exModel (DjField.plain exTitle) =
      Except.error OpError.attributeError ∧
    CreateFTSIndexOperation.database_forwards ⟨"article", "title", "gin"⟩
      "app" exState exState = Except.error OpError.attributeError ∧
    DeleteFTSIndexOperation.database_backwards ⟨"article", "title", "gin"⟩
      "app" exState exState = Except.error OpError.attributeError ∧
    DeleteFTSIndexOperation.database_forwards ⟨"article", "title", "gin"⟩
      "app" exState exState =
      Except.ok [PgFtsSQL.delete_index exModel (DjField.plain exTitle)] := by
  have h := claim_C8 exModel (DjField.plain exTitle) "app" exState exState
    "article" "title" "gin"
  have h2 := h.2 (by decide) (by decide) (by decide)
  exact ⟨by decide, by decide, by decide, h.1 (by decide),
    h2.1, h2.2.1, h2.2.2⟩

/-- C10: `state_forwards` of each of the four operations is `pass`: it
returns the migration state unchanged for every app label and state. -/
theorem claim_C10 (app : String) (st : ProjectState)
    (o1 : CreateFTSTriggerOperation) (o2 : DeleteFTSTriggerOperation)
    (o3 : CreateFTSIndexOperation) (o4 : DeleteFTSIndexOperation) :
    o1.state_forwards app st = st ∧
    o2.state_forwards app st = st ∧
    o3.state_forwards app st = st ∧
    o4.state_forwards app st = st :=
  ⟨rfl, rfl, rfl, rfl⟩
